import Mathlib

/-!
Shallow embedding of the `drf_template` repository: an ownership-scoped CRUD
backend with Tag / Child / Parent resources owned by users.

Sources embedded here:
  * `src/app/core/models.py`    — data model, `UserManager.create_user`,
    Django's `BaseUserManager.normalize_email` (the framework helper the
    source calls).
  * `src/app/tag/views.py`      — `BaseApiAttrViewSet.get_queryset` (shared by
    `TagViewSet` and `ChildViewSet`), `ParentViewSet._params_to_ints`,
    `ParentViewSet.get_queryset`, `ParentViewSet.upload_image`.
  * `src/app/tag/serializers.py` — validation and update semantics of
    `TagSerializer`, `ChildSerializer`, `ParentSerializer`,
    `ParentImageSerializer`.
  * `src/app/user/serializers.py` — `UserSerializer` (password min length 5,
    `update` that hashes the password instead of storing it).

Machine-level conventions: primary keys are `Nat`, Python `int` is `Int`,
the relational store is explicit (`Database`), a raised exception that no
view catches is `ApiError.serverError`, a serializer validation failure is
`ApiError.badRequest`, a lookup outside the caller-scoped queryset is
`ApiError.notFound`.  Password hashing (Django's PBKDF2) is abstracted as an
injective encoding, the only property the code relies on.
-/

/-! ### Python / Django string primitives

The source calls Python builtins (`str.strip`, `str.lower`, `str.split`,
`str.rsplit`, `int(...)`); they are modelled here over `String.data` so that
everything reduces in the kernel.  ASCII behaviour, which is all the code
exercises, matches Python's.
-/

/-- Python `str.strip()`: drop whitespace on both ends. -/
def pyStrip (s : String) : String :=
  ⟨(((s.data.dropWhile Char.isWhitespace).reverse.dropWhile Char.isWhitespace).reverse)⟩

/-- Python `str.lower()` (ASCII fragment). -/
def pyLower (s : String) : String :=
  ⟨s.data.map Char.toLower⟩

/-- Helper for Python `str.split(",")`: split a character list at commas. -/
def splitCommaAux : List Char → List Char → List (List Char)
  | [], acc => [acc.reverse]
  | c :: rest, acc =>
    if c = ',' then acc.reverse :: splitCommaAux rest []
    else splitCommaAux rest (c :: acc)

/-- Python `query_string.split(",")`.  On `""` it returns `[""]`, as Python does. -/
def pySplitComma (s : String) : List String :=
  (splitCommaAux s.data []).map (fun cs => ⟨cs⟩)

/-- Digit-list to number; `none` when a non-digit occurs or the list is empty. -/
def digitsToNat : List Char → Option Nat
  | [] => none
  | cs =>
    cs.foldl
      (fun acc c =>
        acc.bind (fun n => if c.isDigit then some (10 * n + (c.toNat - '0'.toNat)) else none))
      (some 0)

/-- Python `int(s)`: optional surrounding whitespace, optional sign, decimal
digits; anything else raises `ValueError`, modelled as `none`. -/
def pyInt (s : String) : Option Int :=
  match (pyStrip s).data with
  | [] => none
  | '-' :: rest => (digitsToNat rest).map (fun n => -(n : Int))
  | '+' :: rest => (digitsToNat rest).map (fun n => (n : Int))
  | cs => (digitsToNat cs).map (fun n => (n : Int))

/-- Split a character list at the LAST occurrence of `c`
(Python `s.rsplit(c, 1)` when it succeeds); `none` when `c` does not occur. -/
def rsplitLastAux (c : Char) : List Char → Option (List Char × List Char)
  | [] => none
  | x :: xs =>
    match rsplitLastAux c xs with
    | some (l, r) => some (x :: l, r)
    | none => if x = c then some ([], xs) else none

/-! ### Data model (`src/app/core/models.py`) -/

/-- `core.models.User`: email-keyed account.  `passwordHash = none` models
Django's unusable password (`set_password(None)`). -/
structure User where
  id : Nat
  email : String
  name : String
  passwordHash : Option String
  is_active : Bool
  is_staff : Bool
  is_superuser : Bool
deriving DecidableEq, Repr

/-- `core.models.Tag`: named row owned by one user (owner stored as user pk). -/
structure Tag where
  id : Nat
  name : String
  user : Nat
deriving DecidableEq, Repr

/-- `core.models.Child`: identical shape to `Tag`. -/
structure Child where
  id : Nat
  name : String
  user : Nat
deriving DecidableEq, Repr

/-- `core.models.Parent`: scalar fields plus many-to-many id sets and an
optional stored image reference. -/
structure Parent where
  id : Nat
  user : Nat
  name : String
  address : String
  age : Int
  job : String
  children : List Nat
  tags : List Nat
  image : Option String
deriving DecidableEq, Repr

/-- The relational store: rows in insertion order (ascending pk, as the
database returns them when no `ORDER BY` is requested), plus the pk counters. -/
structure Database where
  users : List User
  tags : List Tag
  children : List Child
  parents : List Parent
  nextUserId : Nat
  nextTagId : Nat
  nextChildId : Nat
  nextParentId : Nat
deriving DecidableEq, Repr

/-- Django's `BaseUserManager.normalize_email`: lower-case the domain part
(after the last `@`) of the stripped email; an email without `@` is returned
unchanged (the `except ValueError: pass` branch). -/
def normalize_email (email : String) : String :=
  match rsplitLastAux '@' (pyStrip email).data with
  | none => email
  | some (email_name, domain_part) => ⟨email_name ++ '@' :: domain_part.map Char.toLower⟩

/-- Password hashing abstracted as an injective encoding (the code relies on
nothing else: `set_password` stores `hash(p)`, `check_password p` compares
`hash(p)` with the stored value). -/
def hashPassword (p : String) : String :=
  ⟨'#' :: p.data⟩

/-- Django `User.check_password`: false against an unusable password,
otherwise compare the hash of the candidate with the stored hash. -/
def check_password (u : User) (p : String) : Bool :=
  match u.passwordHash with
  | none => false
  | some h => hashPassword p == h

/-- `UserManager.create_user` (`src/app/core/models.py:26-42`): reject an
empty email with `ValueError("Users must have an email address.")`, else
store the user with normalized email and hashed password. -/
def UserManager.create_user (db : Database) (email : String) (password : Option String) :
    Except String (User × Database) :=
  if email = "" then .error "Users must have an email address."
  else
    let u : User :=
      { id := db.nextUserId
        email := normalize_email email
        name := ""
        passwordHash := password.map hashPassword
        is_active := true
        is_staff := false
        is_superuser := false }
    .ok (u, { db with users := db.users ++ [u], nextUserId := db.nextUserId + 1 })

/-! ### API layer (`src/app/tag/views.py`, `src/app/tag/serializers.py`)

Every endpoint takes the store and the authenticated caller's user pk
explicitly (the framework injects `request.user`; `IsAuthenticated` has
already run, so the claims below all speak about authenticated callers).
-/

/-- HTTP-level failure classes: 404 (lookup outside the caller-scoped
queryset), 400 (serializer validation failure), 500 (an exception no view
catches). -/
inductive ApiError where
  | notFound
  | badRequest
  | serverError
deriving DecidableEq, Repr

/-- Lexicographic comparison of character lists by codepoint — the binary
string collation the database applies to `CharField` values. -/
def charListLt : List Char → List Char → Bool
  | [], [] => false
  | [], _ :: _ => true
  | _ :: _, [] => false
  | c :: cs, d :: ds => if c < d then true else if d < c then false else charListLt cs ds

/-- Binary string comparison over the underlying characters. -/
def strLt (a b : String) : Bool :=
  charListLt a.data b.data

/-- Insert into a list kept in descending `key` order (stable). -/
def insDescBy {α : Type} (key : α → String) (x : α) : List α → List α
  | [] => [x]
  | y :: ys => if strLt (key y) (key x) then x :: y :: ys else y :: insDescBy key x ys

/-- Insertion sort, descending by `key`: the model of SQL `ORDER BY key DESC`
used by `order_by("-name")`. -/
def sortDescBy {α : Type} (key : α → String) : List α → List α
  | [] => []
  | x :: xs => insDescBy key x (sortDescBy key xs)

/-- Query parameters seen by the Tag / Child list endpoints.  The source
view never reads them (`assigned_only` included). -/
structure AttrListParams where
  assigned_only : Option String
deriving DecidableEq, Repr

/-- `BaseApiAttrViewSet.get_queryset` as inherited by `TagViewSet`
(`src/app/tag/views.py:21-26`):
`self.queryset.filter(user=self.request.user).order_by("-name")`.
The request's query parameters are ignored by the source code. -/
def TagViewSet.get_queryset (db : Database) (caller : Nat) (_ps : AttrListParams) : List Tag :=
  sortDescBy Tag.name (db.tags.filter (fun t => t.user == caller))

/-- `BaseApiAttrViewSet.get_queryset` as inherited by `ChildViewSet`. -/
def ChildViewSet.get_queryset (db : Database) (caller : Nat) (_ps : AttrListParams) : List Child :=
  sortDescBy Child.name (db.children.filter (fun c => c.user == caller))

/-- `TagSerializer` validation: `name` is a required, non-blank
`CharField(max_length=255)`. -/
def TagSerializer.validName (name : String) : Bool :=
  name != "" && name.length ≤ 255

/-- Tag create (`CreateModelMixin` + `perform_create`): validation failure
leaves the store untouched; on success the owner is forced to the caller. -/
def TagViewSet.create (db : Database) (caller : Nat) (name : String) :
    Except ApiError Tag × Database :=
  if TagSerializer.validName name then
    let t : Tag := { id := db.nextTagId, name := name, user := caller }
    (.ok t, { db with tags := db.tags ++ [t], nextTagId := db.nextTagId + 1 })
  else (.error .badRequest, db)

/-- Child create, identical to tag create. -/
def ChildViewSet.create (db : Database) (caller : Nat) (name : String) :
    Except ApiError Child × Database :=
  if TagSerializer.validName name then
    let c : Child := { id := db.nextChildId, name := name, user := caller }
    (.ok c, { db with children := db.children ++ [c], nextChildId := db.nextChildId + 1 })
  else (.error .badRequest, db)

/-- `ParentViewSet._params_to_ints` (`src/app/tag/views.py:59-66`):
`[int(str_id) for str_id in query_string.split(",")]`.  `none` models the
`ValueError` that `int` raises on a malformed token, which nothing catches. -/
def ParentViewSet.params_to_ints (query_string : String) : Option (List Int) :=
  (pySplitComma query_string).mapM pyInt

/-- Query parameters read by `ParentViewSet.get_queryset`. -/
structure ParentListParams where
  tags : Option String
  children : Option String
deriving DecidableEq, Repr

/-- The `if tags:` branch of `ParentViewSet.get_queryset`: a missing or
empty parameter (both falsy in Python) leaves the queryset alone; otherwise
the ids are parsed (an unparsable token escapes as `ValueError`, i.e. a
server error) and `filter(tags__id__in=tag_ids)` keeps rows whose tag set
meets the id list. -/
def filterByTagsParam (qs : List Parent) (tags : Option String) :
    Except ApiError (List Parent) :=
  match tags with
  | none => .ok qs
  | some s =>
    if s = "" then .ok qs
    else
      match ParentViewSet.params_to_ints s with
      | none => .error .serverError
      | some tag_ids =>
        .ok (qs.filter (fun p => p.tags.any (fun t => tag_ids.contains (Int.ofNat t))))

/-- The `if children:` branch, same shape against the child relation. -/
def filterByChildrenParam (qs : List Parent) (children : Option String) :
    Except ApiError (List Parent) :=
  match children with
  | none => .ok qs
  | some s =>
    if s = "" then .ok qs
    else
      match ParentViewSet.params_to_ints s with
      | none => .error .serverError
      | some children_ids =>
        .ok (qs.filter (fun p => p.children.any (fun c => children_ids.contains (Int.ofNat c))))

/-- `ParentViewSet.get_queryset` (`src/app/tag/views.py:68-83`): apply the
optional `tags` filter, then the optional `children` filter, then
`filter(user=self.request.user)`.  No `order_by` is requested, so the rows
keep the store's order. -/
def ParentViewSet.get_queryset (db : Database) (caller : Nat) (ps : ParentListParams) :
    Except ApiError (List Parent) :=
  match filterByTagsParam db.parents ps.tags with
  | .error e => .error e
  | .ok qs1 =>
    match filterByChildrenParam qs1 ps.children with
    | .error e => .error e
    | .ok qs2 => .ok (qs2.filter (fun p => p.user == caller))

/-- DRF's `get_object` for detail routes: look the pk up inside the
caller-scoped queryset; a miss is reported as 404. -/
def ParentViewSet.get_object (db : Database) (caller : Nat) (pk : Nat) : Option Parent :=
  (db.parents.filter (fun p => p.user == caller)).find? (fun p => p.id == pk)

/-- A Parent write payload as the view receives it: `none` marks a field
absent from the request body. -/
structure ParentPayload where
  name : Option String
  address : Option String
  age : Option Int
  job : Option String
  tags : Option (List Nat)
  children : Option (List Nat)
deriving DecidableEq, Repr

/-- `ParentSerializer`'s relation validation: every supplied id must name an
existing row (`PrimaryKeyRelatedField` with the UNFILTERED
`Tag.objects.all()` / `Child.objects.all()` querysets — any user's rows
validate, as §9 of the spec flags). -/
def ParentSerializer.relationIdsValid (db : Database) (tags children : List Nat) : Bool :=
  tags.all (fun t => db.tags.any (fun row => row.id == t)) &&
    children.all (fun c => db.children.any (fun row => row.id == c))

/-- Validation for a full (PUT) update: every scalar field is required.  The
relation fields are read through DRF's `ManyRelatedField.get_value`, which on
form-encoded input yields `[]` for an absent key when the update is not
partial — so an omitted `tags`/`children` key validates as the empty list. -/
def ParentSerializer.validateFull (db : Database) (d : ParentPayload) : Option ParentPayload :=
  match d.name, d.address, d.age, d.job with
  | some n, some a, some g, some j =>
    if ParentSerializer.relationIdsValid db (d.tags.getD []) (d.children.getD []) then
      some ⟨some n, some a, some g, some j, some (d.tags.getD []), some (d.children.getD [])⟩
    else none
  | _, _, _, _ => none

/-- Validation for a PATCH: only supplied fields are validated and kept
(absent relation keys stay absent when the serializer is partial). -/
def ParentSerializer.validateSome (db : Database) (d : ParentPayload) : Option ParentPayload :=
  if ParentSerializer.relationIdsValid db (d.tags.getD []) (d.children.getD []) then some d
  else none

/-- `ModelSerializer.update`: assign each validated scalar field, and `.set`
each validated relation field, replacing the whole id set; untouched fields
keep their value. -/
def ParentSerializer.update (p : Parent) (vd : ParentPayload) : Parent :=
  { p with
    name := vd.name.getD p.name
    address := vd.address.getD p.address
    age := vd.age.getD p.age
    job := vd.job.getD p.job
    tags := vd.tags.getD p.tags
    children := vd.children.getD p.children }

/-- Write `p2` back over the row with pk `pk`. -/
def Database.storeParent (db : Database) (pk : Nat) (p2 : Parent) : Database :=
  { db with parents := db.parents.map (fun q => if q.id == pk then p2 else q) }

/-- The detail `update` action shared by PUT and PATCH: `get_object` (404 on
a miss), serializer validation (400 on failure), then
`ModelSerializer.update` and save. -/
def parentUpdateWith (validate : Database → ParentPayload → Option ParentPayload)
    (db : Database) (caller pk : Nat) (d : ParentPayload) :
    Except ApiError (Parent × Database) :=
  match ParentViewSet.get_object db caller pk with
  | none => .error .notFound
  | some p =>
    match validate db d with
    | none => .error .badRequest
    | some vd =>
      let p2 := ParentSerializer.update p vd
      .ok (p2, db.storeParent pk p2)

/-- Full update: `PUT /parents/:id`. -/
def ParentViewSet.putUpdate (db : Database) (caller pk : Nat) (d : ParentPayload) :
    Except ApiError (Parent × Database) :=
  parentUpdateWith ParentSerializer.validateFull db caller pk d

/-- Partial update: `PATCH /parents/:id`. -/
def ParentViewSet.patchUpdate (db : Database) (caller pk : Nat) (d : ParentPayload) :
    Except ApiError (Parent × Database) :=
  parentUpdateWith ParentSerializer.validateSome db caller pk d

/-- `DELETE /parents/:id`: `get_object` then delete the row. -/
def ParentViewSet.destroy (db : Database) (caller pk : Nat) : Except ApiError Database :=
  match ParentViewSet.get_object db caller pk with
  | none => .error .notFound
  | some p => .ok { db with parents := db.parents.filter (fun q => !(q.id == p.id)) }

/-- An uploaded multipart file; `isImage` stands for "decodable by Pillow",
the check `ImageField` performs. -/
structure UploadedFile where
  filename : String
  isImage : Bool
deriving DecidableEq, Repr

/-- `ParentViewSet.upload_image` (`src/app/tag/views.py:104-127`) with
`ParentImageSerializer`, whose writable field list is exactly `("image",)`
(`id` is read-only): `get_object`, validate the file is an image (400 when
not), then save — only the image field of the row is assigned.  The stored
reference records the uploaded file; the uuid renaming of
`parent_image_file_path` is collapsed to the original filename, which no
claim depends on. -/
def ParentViewSet.upload_image (db : Database) (caller pk : Nat) (f : UploadedFile) :
    Except ApiError (Parent × Database) :=
  match ParentViewSet.get_object db caller pk with
  | none => .error .notFound
  | some parent =>
    if f.isImage then
      let p2 := { parent with image := some f.filename }
      .ok (p2, db.storeParent pk p2)
    else .error .badRequest

/-! ### User profile serializer (`src/app/user/serializers.py`) -/

/-- A profile PATCH payload. -/
structure UserPayload where
  email : Option String
  name : Option String
  password : Option String
deriving DecidableEq, Repr

/-- `UserSerializer` field validation on a partial update: the only
constraint the serializer declares beyond field presence is
`password: min_length 5`. -/
def UserSerializer.validateSome (d : UserPayload) : Option UserPayload :=
  match d.password with
  | some pw => if pw.length < 5 then none else some d
  | none => some d

/-- `UserSerializer.update` (`src/app/user/serializers.py:30-44`): pop the
password out of the validated data, let the model update assign the rest,
then — only when the popped password is truthy — `set_password` (store its
hash) and save. -/
def UserSerializer.update (u : User) (vd : UserPayload) : User :=
  let u1 := { u with email := vd.email.getD u.email, name := vd.name.getD u.name }
  match vd.password with
  | none => u1
  | some pw => if pw = "" then u1 else { u1 with passwordHash := some (hashPassword pw) }

/-- Modelled from the spec: the profile endpoint view (spec §6, `PATCH
/user/me`) is not under `src/app/user/views.py` (only `CreateUserView` is;
the tests reference a `user:me` route).  Per the spec it runs `UserSerializer`
as a partial update on the authenticated user: validation failure is a 400,
success applies `UserSerializer.update` — both of which are source code. -/
def ManageUserView.patchMe (u : User) (d : UserPayload) : Except ApiError User :=
  match UserSerializer.validateSome d with
  | none => .error .badRequest
  | some vd => .ok (UserSerializer.update u vd)

/-! ### Spec-side comparison definition -/

/-- Follows the spec's words (§4.2, §8) for the `assigned_only=1` filter, to
compare against the code: exactly the caller's rows referenced by at least
one Parent owned by the caller, each exactly once (the tag table holds each
row once, so filtering it collapses duplicates). -/
def specAssignedTags (db : Database) (caller : Nat) : List Tag :=
  db.tags.filter
    (fun t => t.user == caller &&
      db.parents.any (fun p => p.user == caller && p.tags.contains t.id))

/-! ### Helper lemmas -/

theorem mem_insDescBy {α : Type} (key : α → String) (x a : α) (l : List α) :
    a ∈ insDescBy key x l ↔ a = x ∨ a ∈ l := by
  induction l with
  | nil => simp [insDescBy]
  | cons y ys ih =>
    by_cases h : strLt (key y) (key x) = true
    · simp [insDescBy, h]
    · simp only [insDescBy, if_neg h, List.mem_cons, ih]
      tauto

theorem mem_sortDescBy {α : Type} (key : α → String) (a : α) (l : List α) :
    a ∈ sortDescBy key l ↔ a ∈ l := by
  induction l with
  | nil => simp [sortDescBy]
  | cons y ys ih => simp [sortDescBy, mem_insDescBy, ih]

theorem hashPassword_inj {a b : String} (h : hashPassword a = hashPassword b) : a = b := by
  have h2 : '#' :: a.data = '#' :: b.data := congrArg String.data h
  injection h2 with _ h3
  exact String.ext h3

theorem params_to_ints_empty : ParentViewSet.params_to_ints "" = none := by decide

theorem params_to_ints_ne_empty {s : String} {ids : List Int}
    (h : ParentViewSet.params_to_ints s = some ids) : s ≠ "" := by
  intro he
  subst he
  rw [params_to_ints_empty] at h
  cases h

theorem filterByTagsParam_parsed {s : String} {ids : List Int} (qs : List Parent)
    (h : ParentViewSet.params_to_ints s = some ids) :
    filterByTagsParam qs (some s) =
      .ok (qs.filter (fun p => p.tags.any (fun t => ids.contains (Int.ofNat t)))) := by
  rw [filterByTagsParam, if_neg (params_to_ints_ne_empty h), h]

theorem filterByChildrenParam_parsed {s : String} {ids : List Int} (qs : List Parent)
    (h : ParentViewSet.params_to_ints s = some ids) :
    filterByChildrenParam qs (some s) =
      .ok (qs.filter (fun p => p.children.any (fun c => ids.contains (Int.ofNat c)))) := by
  rw [filterByChildrenParam, if_neg (params_to_ints_ne_empty h), h]

theorem any_contains_pair (ids : List Nat) (t1 t2 : Nat) :
    (ids.any (fun t => [Int.ofNat t1, Int.ofNat t2].contains (Int.ofNat t)) = true) ↔
      t1 ∈ ids ∨ t2 ∈ ids := by
  simp only [List.any_eq_true, List.contains, List.elem_eq_mem, List.mem_cons,
    List.not_mem_nil, or_false, decide_eq_true_eq, Int.ofNat.injEq]
  constructor
  · rintro ⟨t, ht, rfl | rfl⟩
    · exact Or.inl ht
    · exact Or.inr ht
  · rintro (h | h)
    · exact ⟨t1, h, Or.inl rfl⟩
    · exact ⟨t2, h, Or.inr rfl⟩

theorem any_contains_mem (ids : List Int) (l : List Nat) :
    (l.any (fun t => ids.contains (Int.ofNat t)) = true) ↔
      ∃ t ∈ l, Int.ofNat t ∈ ids := by
  simp [List.any_eq_true, List.contains, List.elem_eq_mem]

/-! ### Concrete stores for the closed theorems -/

/-- Tag pk 1 owned by user 1. -/
def ta1 : Tag := ⟨1, "alpha", 1⟩

/-- Tag pk 2 owned by user 2. -/
def tb2 : Tag := ⟨2, "beta", 2⟩

/-- Child pk 1 owned by user 1. -/
def ca1 : Child := ⟨1, "carl", 1⟩

/-- Child pk 2 owned by user 2. -/
def cb2 : Child := ⟨2, "dora", 2⟩

/-- Parent pk 1 owned by user 1, holding tag 1 and child 1. -/
def pa1 : Parent := ⟨1, 1, "pa", "addr a", 30, "job a", [1], [1], none⟩

/-- Parent pk 2 owned by user 2, holding tag 2 and child 2. -/
def pb2 : Parent := ⟨2, 2, "pb", "addr b", 31, "job b", [2], [2], none⟩

/-- A store with two users' data side by side (users 1 and 2). -/
def dbAB : Database := ⟨[], [ta1, tb2], [ca1, cb2], [pa1, pb2], 3, 3, 3, 3⟩

/-- Tag pk 1 of user 1 (mirrors `test_retrieve_tags_assigned_unique`). -/
def tagOne : Tag := ⟨1, "tag1", 1⟩

/-- Tag pk 2 of user 1, referenced by no Parent. -/
def tagTwo : Tag := ⟨2, "tag2", 1⟩

/-- Parent pk 1 of user 1 referencing tag 1. -/
def parentOne : Parent := ⟨1, 1, "parent1", "address 1", 1, "job 1", [], [1], none⟩

/-- Parent pk 2 of user 1, also referencing tag 1. -/
def parentTwo : Parent := ⟨2, 1, "parent2", "address 2", 2, "job 2", [], [1], none⟩

/-- A single-user store: tags 1 and 2, parents 1 and 2 both referencing tag 1. -/
def dbTwo : Database := ⟨[], [tagOne, tagTwo], [], [parentOne, parentTwo], 2, 3, 1, 3⟩

/-! ### Claims -/

/-- **C7**: for every authenticated caller, a Tag or Child create request
whose `name` is the empty string fails validation (400) and leaves the store
exactly as it was. -/
theorem C7_empty_name_rejected (db : Database) (caller : Nat) :
    TagViewSet.create db caller "" = (.error .badRequest, db) ∧
    ChildViewSet.create db caller "" = (.error .badRequest, db) :=
  ⟨rfl, rfl⟩

/-- **C8**: `create_user` stores `Test@GMAIL.com` as `Test@gmail.com`
(domain lower-cased by `normalize_email`), and an empty email raises the
`ValueError` validation failure instead of creating a user. -/
theorem C8_email_normalization (db : Database) (pw : Option String) :
    (UserManager.create_user db "Test@GMAIL.com" pw).map (fun r => r.1.email) =
      .ok "Test@gmail.com" ∧
    UserManager.create_user db "" pw = .error "Users must have an email address." :=
  ⟨rfl, rfl⟩

/-- **C1**: for distinct authenticated users A and B, every row of B's Tag,
Child and Parent list responses is owned by B (so nothing A created appears),
and a Parent retrieve (`get_object`), full/partial update or delete by B
against the pk of a row owned by A reports not-found instead of returning or
mutating the row.  (Tag/Child expose no detail routes — only the list/create
mixins are installed — so the 404 clause is carried by the Parent endpoint.) -/
theorem C1_user_scoping (db : Database) (A B : Nat) (hAB : A ≠ B)
    (hids : (db.parents.map Parent.id).Nodup) :
    (∀ ps : AttrListParams, ∀ t ∈ TagViewSet.get_queryset db B ps, t.user = B) ∧
    (∀ ps : AttrListParams, ∀ c ∈ ChildViewSet.get_queryset db B ps, c.user = B) ∧
    (∀ (pp : ParentListParams) (l : List Parent),
        ParentViewSet.get_queryset db B pp = .ok l → ∀ p ∈ l, p.user = B) ∧
    (∀ p ∈ db.parents, p.user = A →
        ParentViewSet.get_object db B p.id = none ∧
        (∀ d, ParentViewSet.putUpdate db B p.id d = .error .notFound) ∧
        (∀ d, ParentViewSet.patchUpdate db B p.id d = .error .notFound) ∧
        ParentViewSet.destroy db B p.id = .error .notFound) := by
  refine ⟨?_, ?_, ?_, ?_⟩
  · intro ps t ht
    rw [TagViewSet.get_queryset, mem_sortDescBy] at ht
    simpa using (List.mem_filter.mp ht).2
  · intro ps c hc
    rw [ChildViewSet.get_queryset, mem_sortDescBy] at hc
    simpa using (List.mem_filter.mp hc).2
  · intro pp l hl p hp
    rw [ParentViewSet.get_queryset] at hl
    split at hl
    · simp at hl
    · split at hl
      · simp at hl
      · injection hl with h2
        subst h2
        simpa using (List.mem_filter.mp hp).2
  · intro p hp hpA
    have hobj : ParentViewSet.get_object db B p.id = none := by
      rw [ParentViewSet.get_object]
      apply List.find?_eq_none.mpr
      intro q hq hbeq
      rcases List.mem_filter.mp hq with ⟨hqmem, hqB⟩
      have hquser : q.user = B := by simpa using hqB
      have hqid : q.id = p.id := by simpa using hbeq
      have : q = p := List.inj_on_of_nodup_map hids hqmem hp hqid
      subst this
      exact hAB (hpA ▸ hquser.symm ▸ rfl)
    refine ⟨hobj, ?_, ?_, ?_⟩
    · intro d
      rw [ParentViewSet.putUpdate, parentUpdateWith, hobj]
    · intro d
      rw [ParentViewSet.patchUpdate, parentUpdateWith, hobj]
    · rw [ParentViewSet.destroy, hobj]

/-- Closed instantiation of `C1_user_scoping` at the two-user store `dbAB`
with A = 1, B = 2. -/
theorem C1_user_scoping_witness :
    (1 : Nat) ≠ 2 ∧ (dbAB.parents.map Parent.id).Nodup ∧
    ((∀ ps : AttrListParams, ∀ t ∈ TagViewSet.get_queryset dbAB 2 ps, t.user = 2) ∧
      (∀ ps : AttrListParams, ∀ c ∈ ChildViewSet.get_queryset dbAB 2 ps, c.user = 2) ∧
      (∀ (pp : ParentListParams) (l : List Parent),
          ParentViewSet.get_queryset dbAB 2 pp = .ok l → ∀ p ∈ l, p.user = 2) ∧
      (∀ p ∈ dbAB.parents, p.user = 1 →
          ParentViewSet.get_object dbAB 2 p.id = none ∧
          (∀ d, ParentViewSet.putUpdate dbAB 2 p.id d = .error .notFound) ∧
          (∀ d, ParentViewSet.patchUpdate dbAB 2 p.id d = .error .notFound) ∧
          ParentViewSet.destroy dbAB 2 p.id = .error .notFound)) :=
  ⟨by decide, by decide, C1_user_scoping dbAB 1 2 (by decide) (by decide)⟩

/-- **C3**: with `tags=t1,t2` the Parent list returns exactly the caller's
Parents whose tag set meets `{t1, t2}` (OR/union semantics; Parents with
neither tag are excluded), and adding a `children` filter intersects the two
OR-filtered sets. -/
theorem C3_parent_or_filter (db : Database) (caller : Nat) (s : String) (t1 t2 : Nat)
    (hs : ParentViewSet.params_to_ints s = some [Int.ofNat t1, Int.ofNat t2]) :
    (∀ l, ParentViewSet.get_queryset db caller ⟨some s, none⟩ = .ok l →
        ∀ p, p ∈ l ↔ p ∈ db.parents ∧ p.user = caller ∧ (t1 ∈ p.tags ∨ t2 ∈ p.tags)) ∧
    (∀ s2 ids2 l, ParentViewSet.params_to_ints s2 = some ids2 →
        ParentViewSet.get_queryset db caller ⟨some s, some s2⟩ = .ok l →
        ∀ p, p ∈ l ↔ p ∈ db.parents ∧ p.user = caller ∧
          (t1 ∈ p.tags ∨ t2 ∈ p.tags) ∧ (∃ c ∈ p.children, Int.ofNat c ∈ ids2)) := by
  constructor
  · intro l hl p
    rw [ParentViewSet.get_queryset] at hl
    rw [show (⟨some s, none⟩ : ParentListParams).tags = some s from rfl,
      filterByTagsParam_parsed db.parents hs] at hl
    dsimp only [filterByChildrenParam] at hl
    injection hl with h2
    subst h2
    simp only [List.mem_filter, any_contains_pair, beq_iff_eq, decide_eq_true_eq]
    tauto
  · intro s2 ids2 l hs2 hl p
    rw [ParentViewSet.get_queryset] at hl
    rw [show (⟨some s, some s2⟩ : ParentListParams).tags = some s from rfl,
      filterByTagsParam_parsed db.parents hs] at hl
    dsimp only at hl
    rw [filterByChildrenParam_parsed _ hs2] at hl
    dsimp only at hl
    injection hl with h2
    subst h2
    simp only [List.mem_filter, any_contains_pair, any_contains_mem, beq_iff_eq,
      decide_eq_true_eq]
    tauto

/-- Closed instantiation of `C3_parent_or_filter`: `tags=1,2` at the
single-user store `dbTwo`. -/
theorem C3_parent_or_filter_witness :
    ParentViewSet.params_to_ints "1,2" = some [Int.ofNat 1, Int.ofNat 2] ∧
    ((∀ l, ParentViewSet.get_queryset dbTwo 1 ⟨some "1,2", none⟩ = .ok l →
        ∀ p, p ∈ l ↔ p ∈ dbTwo.parents ∧ p.user = 1 ∧ (1 ∈ p.tags ∨ 2 ∈ p.tags)) ∧
      (∀ s2 ids2 l, ParentViewSet.params_to_ints s2 = some ids2 →
        ParentViewSet.get_queryset dbTwo 1 ⟨some "1,2", some s2⟩ = .ok l →
        ∀ p, p ∈ l ↔ p ∈ dbTwo.parents ∧ p.user = 1 ∧
          (1 ∈ p.tags ∨ 2 ∈ p.tags) ∧ (∃ c ∈ p.children, Int.ofNat c ∈ ids2))) :=
  ⟨by decide, C3_parent_or_filter dbTwo 1 "1,2" 1 2 (by decide)⟩

theorem validateFull_spec {db : Database} {d vd : ParentPayload}
    (h : ParentSerializer.validateFull db d = some vd) :
    vd.tags = some (d.tags.getD []) ∧ vd.children = some (d.children.getD []) := by
  unfold ParentSerializer.validateFull at h
  split at h
  · split at h
    · injection h with h2
      subst h2
      exact ⟨rfl, rfl⟩
    · exact Option.noConfusion h
  · exact Option.noConfusion h

theorem validateSome_spec {db : Database} {d vd : ParentPayload}
    (h : ParentSerializer.validateSome db d = some vd) : vd = d := by
  unfold ParentSerializer.validateSome at h
  split at h
  · injection h with h2
    exact h2.symm
  · exact Option.noConfusion h

/-- **C5**: a full (PUT) update whose payload omits `tags` leaves the Parent
with zero tags (both in the returned object and in the store), however many
tags it had; a partial (PATCH) update carrying `tags: [x]` replaces the whole
tag set with `[x]` while every field absent from the payload is untouched. -/
theorem C5_update_replaces_relations (db : Database) (caller pk : Nat)
    (dput dpatch : ParentPayload) (x : Nat)
    (hput : dput.tags = none) (hpatch : dpatch.tags = some [x]) :
    (∀ p2 db2, ParentViewSet.putUpdate db caller pk dput = .ok (p2, db2) →
        p2.tags = [] ∧ ∀ q ∈ db2.parents, q.id = pk → q.tags = []) ∧
    (∀ p p2 db2, ParentViewSet.get_object db caller pk = some p →
        ParentViewSet.patchUpdate db caller pk dpatch = .ok (p2, db2) →
        p2.tags = [x] ∧
        (dpatch.name = none → p2.name = p.name) ∧
        (dpatch.address = none → p2.address = p.address) ∧
        (dpatch.age = none → p2.age = p.age) ∧
        (dpatch.job = none → p2.job = p.job) ∧
        (dpatch.children = none → p2.children = p.children)) := by
  constructor
  · intro p2 db2 h
    rw [ParentViewSet.putUpdate, parentUpdateWith] at h
    rcases hobj : ParentViewSet.get_object db caller pk with _ | p
    · rw [hobj] at h
      exact Except.noConfusion h
    · rw [hobj] at h
      dsimp only at h
      rcases hvd : ParentSerializer.validateFull db dput with _ | vd
      · rw [hvd] at h
        exact Except.noConfusion h
      · rw [hvd] at h
        dsimp only at h
        injection h with h2
        injection h2 with hp2 hdb2
        subst hp2
        subst hdb2
        obtain ⟨htags, -⟩ := validateFull_spec hvd
        constructor
        · simp [ParentSerializer.update, htags, hput]
        · intro q hq hqid
          rw [Database.storeParent] at hq
          rcases List.mem_map.mp hq with ⟨orig, horig, rfl⟩
          by_cases hcase : (orig.id == pk) = true
          · simp only [hcase, if_true]
            simp [ParentSerializer.update, htags, hput]
          · simp only [hcase, if_false] at hqid ⊢
            simp only [beq_iff_eq] at hcase
            exact absurd hqid hcase
  · intro p p2 db2 hobj h
    rw [ParentViewSet.patchUpdate, parentUpdateWith, hobj] at h
    dsimp only at h
    rcases hvd : ParentSerializer.validateSome db dpatch with _ | vd
    · rw [hvd] at h
      exact Except.noConfusion h
    · rw [hvd] at h
      dsimp only at h
      injection h with h2
      injection h2 with hp2 hdb2
      subst hp2
      have hvd2 : vd = dpatch := validateSome_spec hvd
      subst hvd2
      refine ⟨?_, ?_, ?_, ?_, ?_, ?_⟩
      · simp [ParentSerializer.update, hpatch]
      · intro hn
        simp [ParentSerializer.update, hn]
      · intro hn
        simp [ParentSerializer.update, hn]
      · intro hn
        simp [ParentSerializer.update, hn]
      · intro hn
        simp [ParentSerializer.update, hn]
      · intro hn
        simp [ParentSerializer.update, hn]

/-- A full-update payload that omits `tags` (mirrors `test_full_update_parent`). -/
def c5put : ParentPayload := ⟨some "Excellent", some "123 Fake Street", some 200, some "test job", none, none⟩

/-- A partial-update payload carrying `tags: [2]` (mirrors `test_partial_update_parent`). -/
def c5patch : ParentPayload := ⟨some "besty", none, none, none, some [2], none⟩

/-- The row `ParentViewSet.putUpdate dbTwo 1 1 c5put` writes back. -/
def c5putParent : Parent := ⟨1, 1, "Excellent", "123 Fake Street", 200, "test job", [], [], none⟩

/-- The row `ParentViewSet.patchUpdate dbTwo 1 1 c5patch` writes back. -/
def c5patchParent : Parent := ⟨1, 1, "besty", "address 1", 1, "job 1", [], [2], none⟩

/-- Closed instantiation of `C5_update_replaces_relations` on `dbTwo`, parent
pk 1 (which holds tag 1 beforehand): the PUT really succeeds and clears the
tags, the PATCH really succeeds and replaces them with `[2]`. -/
theorem C5_update_replaces_relations_witness :
    c5put.tags = none ∧ c5patch.tags = some [2] ∧
    ParentViewSet.putUpdate dbTwo 1 1 c5put =
      .ok (c5putParent, dbTwo.storeParent 1 c5putParent) ∧
    ParentViewSet.patchUpdate dbTwo 1 1 c5patch =
      .ok (c5patchParent, dbTwo.storeParent 1 c5patchParent) ∧
    ((∀ p2 db2, ParentViewSet.putUpdate dbTwo 1 1 c5put = .ok (p2, db2) →
        p2.tags = [] ∧ ∀ q ∈ db2.parents, q.id = 1 → q.tags = []) ∧
      (∀ p p2 db2, ParentViewSet.get_object dbTwo 1 1 = some p →
        ParentViewSet.patchUpdate dbTwo 1 1 c5patch = .ok (p2, db2) →
        p2.tags = [2] ∧
        (c5patch.name = none → p2.name = p.name) ∧
        (c5patch.address = none → p2.address = p.address) ∧
        (c5patch.age = none → p2.age = p.age) ∧
        (c5patch.job = none → p2.job = p.job) ∧
        (c5patch.children = none → p2.children = p.children))) :=
  ⟨rfl, rfl, by rfl, by rfl,
    C5_update_replaces_relations dbTwo 1 1 c5put c5patch 2 rfl rfl⟩

/-- **C9**: when a profile PATCH accepts a new password, a later credential
check with the new password succeeds and one with the old password fails
(the serializer hashes the accepted password into the stored credential,
and the hash encoding is injective). -/
theorem C9_password_update (u : User) (d : UserPayload) (oldPw newPw : String) (u2 : User)
    (hold : check_password u oldPw = true)
    (hd : d.password = some newPw)
    (hne : oldPw ≠ newPw)
    (hok : ManageUserView.patchMe u d = .ok u2) :
    check_password u2 newPw = true ∧ check_password u2 oldPw = false := by
  unfold ManageUserView.patchMe UserSerializer.validateSome at hok
  rw [hd] at hok
  dsimp only at hok
  by_cases hlen : newPw.length < 5
  · rw [if_pos hlen] at hok
    exact Except.noConfusion hok
  · rw [if_neg hlen] at hok
    injection hok with h2
    subst h2
    have hpw : newPw ≠ "" := by
      intro h
      subst h
      exact hlen (by decide)
    have hu2 : (UserSerializer.update u d).passwordHash = some (hashPassword newPw) := by
      unfold UserSerializer.update
      rw [hd]
      dsimp only
      rw [if_neg hpw]
    constructor
    · rw [check_password, hu2]
      exact beq_self_eq_true _
    · rw [check_password, hu2]
      rw [beq_eq_false_iff_ne]
      intro hcontra
      exact hne (hashPassword_inj hcontra)

/-- The profile user of the closed `C9` instantiation, holding the hash of
`testpass`. -/
def c9user : User := ⟨1, "test@gmail.com", "fname", some (hashPassword "testpass"), true, false, false⟩

/-- A profile PATCH payload carrying a new name and password (mirrors
`test_update_user_profile`). -/
def c9payload : UserPayload := ⟨none, some "new name", some "newpassword123"⟩

/-- The user as stored after `ManageUserView.patchMe c9user c9payload`. -/
def c9updated : User := ⟨1, "test@gmail.com", "new name", some (hashPassword "newpassword123"), true, false, false⟩

/-- Closed instantiation of `C9_password_update` at `c9user`. -/
theorem C9_password_update_witness :
    check_password c9user "testpass" = true ∧
    c9payload.password = some "newpassword123" ∧
    "testpass" ≠ "newpassword123" ∧
    ManageUserView.patchMe c9user c9payload = .ok c9updated ∧
    (check_password c9updated "newpassword123" = true ∧
      check_password c9updated "testpass" = false) :=
  ⟨by decide, rfl, by decide, by rfl,
    C9_password_update c9user c9payload "testpass" "newpassword123" c9updated
      (by decide) rfl (by decide) (by rfl)⟩

/-- **C10**: an accepted `upload_image` only changes the Parent's image
field — name, address, age, job, tag set and child set are untouched,
because `ParentImageSerializer` exposes only the read-only `id` and the
`image` field. -/
theorem C10_upload_image_frame (db : Database) (caller pk : Nat) (f : UploadedFile)
    (p p2 : Parent) (db2 : Database)
    (hobj : ParentViewSet.get_object db caller pk = some p)
    (hok : ParentViewSet.upload_image db caller pk f = .ok (p2, db2)) :
    p2.name = p.name ∧ p2.address = p.address ∧ p2.age = p.age ∧
      p2.job = p.job ∧ p2.tags = p.tags ∧ p2.children = p.children := by
  unfold ParentViewSet.upload_image at hok
  rw [hobj] at hok
  dsimp only at hok
  by_cases hf : f.isImage = true
  · rw [if_pos hf] at hok
    injection hok with h2
    injection h2 with hp2 hdb2
    subst hp2
    exact ⟨rfl, rfl, rfl, rfl, rfl, rfl⟩
  · rw [if_neg hf] at hok
    exact Except.noConfusion hok

/-- The uploaded file of the closed `C10` instantiation. -/
def c10file : UploadedFile := ⟨"img.jpg", true⟩

/-- `pa1` after the image upload. -/
def pa1Img : Parent := ⟨1, 1, "pa", "addr a", 30, "job a", [1], [1], some "img.jpg"⟩

/-- Closed instantiation of `C10_upload_image_frame` at `dbAB`, parent pk 1. -/
theorem C10_upload_image_frame_witness :
    ParentViewSet.get_object dbAB 1 1 = some pa1 ∧
    ParentViewSet.upload_image dbAB 1 1 c10file = .ok (pa1Img, dbAB.storeParent 1 pa1Img) ∧
    (pa1Img.name = pa1.name ∧ pa1Img.address = pa1.address ∧ pa1Img.age = pa1.age ∧
      pa1Img.job = pa1.job ∧ pa1Img.tags = pa1.tags ∧ pa1Img.children = pa1.children) :=
  ⟨by decide, by rfl,
    C10_upload_image_frame dbAB 1 1 c10file pa1 pa1Img (dbAB.storeParent 1 pa1Img)
      (by decide) (by rfl)⟩

/-- **C2** (code divergence evaluation): on the store that mirrors the
repo's own `test_retrieve_tags_assigned_unique` — tags 1 and 2 owned by the
caller, two Parents both referencing tag 1 — the Tag list endpoint invoked
with `assigned_only=1` still returns BOTH tags (the view never reads the
parameter), while the spec's assigned-only set is exactly `[tag 1]`, once. -/
theorem C2_assigned_only_ignored :
    (TagViewSet.get_queryset dbTwo 1 ⟨some "1"⟩).map Tag.id = [2, 1] ∧
    (specAssignedTags dbTwo 1).map Tag.id = [1] := by
  constructor
  · rfl
  · rfl

/-- **C6** (code divergence evaluation): with two Parents (pks 1 then 2)
owned by the caller, the Parent list endpoint returns them in the store's
pk-ascending order — `ParentViewSet.get_queryset` requests no ordering — and
that order is not descending by pk as the claim (and the repo's own
`test_retrieve_recipes`, which compares against `order_by("-id")`) requires. -/
theorem C6_no_descending_order :
    (ParentViewSet.get_queryset dbTwo 1 ⟨none, none⟩).map (List.map Parent.id) = .ok [1, 2] ∧
    ¬ List.Sorted (· ≥ ·) [1, 2] := by
  constructor
  · rfl
  · decide

/-- **C4** counterexample: at the concrete request `tags=abc` the claim "a
malformed id list fails with a client validation error (400)" is false — the
`ValueError` raised by `int("abc")` escapes `_params_to_ints` uncaught, a
server error, which is not the 400 the claim states. -/
theorem C4_counterexample :
    ParentViewSet.get_queryset dbTwo 1 ⟨some "abc", none⟩ = .error .serverError ∧
    ApiError.serverError ≠ ApiError.badRequest := by
  constructor
  · rfl
  · decide

/-- **C4** (amended): a `tags` or `children` parameter holding any token
that does not parse as an integer makes the Parent list request raise the
uncaught `ValueError` from `_params_to_ints` — a server error (500), not a
client validation error (400). -/
theorem C4_malformed_ids_server_error (db : Database) (caller : Nat) (s : String)
    (hne : s ≠ "") (hbad : ParentViewSet.params_to_ints s = none) :
    ParentViewSet.get_queryset db caller ⟨some s, none⟩ = .error .serverError ∧
    ParentViewSet.get_queryset db caller ⟨none, some s⟩ = .error .serverError := by
  constructor
  · rw [ParentViewSet.get_queryset]
    dsimp only
    rw [filterByTagsParam, if_neg hne, hbad]
  · rw [ParentViewSet.get_queryset]
    dsimp only [filterByTagsParam]
    rw [filterByChildrenParam, if_neg hne, hbad]

/-- Closed instantiation of `C4_malformed_ids_server_error` at `tags=abc` /
`children=abc`. -/
theorem C4_malformed_ids_server_error_witness :
    ("abc" : String) ≠ "" ∧ ParentViewSet.params_to_ints "abc" = none ∧
    (ParentViewSet.get_queryset dbTwo 1 ⟨some "abc", none⟩ = .error .serverError ∧
      ParentViewSet.get_queryset dbTwo 1 ⟨none, some "abc"⟩ = .error .serverError) :=
  ⟨by decide, by decide,
    C4_malformed_ids_server_error dbTwo 1 "abc" (by decide) (by decide)⟩
